import Mathlib

/-!
Shallow embedding of the AeroBot Telegram chatbot (`src/app.py`) and proofs
about its conversation controller, input sanitizer and lookup gateway.

Modelling conventions:
* Python strings are Lean `String`/`List Char`; the character classes of the
  regexes `\w` and `\s` are modelled over ASCII (`Char.isAlphanum`/`'_'` for
  `\w`, `Char.isWhitespace` for `\s` and `str.strip`).
* `datetime.now()` timestamps and float temperatures are modelled as `ℚ`.
* Each outbound HTTP call is parametrised by a `FetchOutcome` describing what
  the network does (success payload, timeout, HTTP error status, transport
  error, unparseable JSON body, or any other exception), and is recorded as an
  `Effect.httpGet` in the handler's effect trace.
* Python functions that may raise are embedded as `Except PyExn`-valued
  functions; a `try/except` block is a `match` on the body's result.
-/

namespace Aero

/-! ### Input sanitizer (`clean_input`, `validate_city_name`, `validate_question`) -/

/-- ASCII model of Python's `\s` class and of the class stripped by `str.strip`. -/
def isSpaceChar (c : Char) : Bool := c.isWhitespace

/-- ASCII model of Python's `\w` class: letters, digits and underscore. -/
def isWordChar (c : Char) : Bool := c.isAlphanum || c = '_'

/-- Characters kept by `clean_input`'s `re.sub(r'[^\w\s,.!?-]', '', ...)`. -/
def allowedInputChar (c : Char) : Bool :=
  isWordChar c || isSpaceChar c || c = ',' || c = '.' || c = '!' || c = '?' || c = '-'

/-- Characters of the class `[\w\s\-,.]` in `validate_city_name`'s regex. -/
def cityClassChar (c : Char) : Bool :=
  isWordChar c || isSpaceChar c || c = '-' || c = ',' || c = '.'

/-- `str.strip()`: drop whitespace from both ends. -/
def pyStrip (l : List Char) : List Char :=
  ((l.dropWhile isSpaceChar).reverse.dropWhile isSpaceChar).reverse

/-- `str.strip()` on strings. -/
def pyStripStr (s : String) : String := ⟨pyStrip s.data⟩

/-- `re.sub(r'\s+', ' ', ...)`: every maximal whitespace run becomes one `' '`.
The flag records whether the previous character was part of a whitespace run. -/
def collapseAux : Bool → List Char → List Char
  | _, [] => []
  | b, c :: rest =>
    if isSpaceChar c then
      if b then collapseAux true rest else ' ' :: collapseAux true rest
    else c :: collapseAux false rest

def collapseWs (l : List Char) : List Char := collapseAux false l

/-- List-level body of `clean_input`. -/
def cleanList (l : List Char) : List Char :=
  collapseWs ((pyStrip l).filter allowedInputChar)

/-- `clean_input(text)`: strip, remove characters outside `[\w\s,.!?-]`,
collapse whitespace runs to a single space. -/
def clean_input (s : String) : String := ⟨cleanList s.data⟩

def MAX_CITY_LENGTH : Nat := 50
def MAX_QUESTION_LENGTH : Nat := 200
def WEATHER_API_CACHE_EXPIRE : Nat := 1800

/-- Model of `re.match(r'^[\w\s\-,.]+$', city)`: nonempty and every character
in the class. (Python's `$`-before-final-newline quirk is absorbed by `\s`
containing `'\n'`.) -/
def matchesCityClass (s : String) : Bool :=
  !s.data.isEmpty && s.data.all cityClassChar

/-- `validate_city_name(city)`. -/
def validate_city_name (city : String) : Bool :=
  if city.length > MAX_CITY_LENGTH then false
  else if !matchesCityClass city then false
  else true

/-- `validate_question(question)`. -/
def validate_question (question : String) : Bool :=
  if question.length > MAX_QUESTION_LENGTH then false
  else if (pyStrip question.data).isEmpty then false
  else true

/-! ### Conversation states (`range(5)`) and `ConversationHandler.END` -/

def MAIN_MENU : Int := 0
def WEATHER_LOCATION : Int := 1
def ASK_QUESTION : Int := 2
def EVENTS_LOCATION : Int := 3
def WATER_TIPS_LOCATION : Int := 4
/-- `telegram.ext.ConversationHandler.END`. -/
def END_CONVERSATION : Int := -1

/-! ### Session data (`context.user_data` / `context.chat_data`) -/

structure ForecastEntry where
  shortday : String
  skytextday : String
  high : String
  low : String
  precip : String
deriving DecidableEq

structure WeatherCurrent where
  day : String
  date : String
  observationtime : String
  skytext : String
  humidity : String
  winddisplay : String
  temperature : ℚ
  feelslike : ℚ
deriving DecidableEq

structure WeatherLocationData where
  name : String
deriving DecidableEq

/-- The `data["0"]` payload of the Kaiz weather API, restricted to the fields
the handlers read. -/
structure WeatherData where
  location : WeatherLocationData
  current : WeatherCurrent
  forecast : List ForecastEntry
deriving DecidableEq

/-- `context.user_data`: holds `'last_request'` (rate limiting) and
`'weather_data'` (last fetched weather payload). -/
structure UserData where
  last_request : Option ℚ
  weather_data : Option WeatherData
deriving DecidableEq

/-- Per-chat mutable context: `user_data` plus the (never written) `chat_data`. -/
structure BotCtx where
  user_data : UserData
  chat_data : List (String × String)
deriving DecidableEq

/-- `rate_limit_user(user_id, context)`: returns `true` (rate limited) when a
previous request exists less than 5 seconds ago; otherwise records `now` and
returns `false`. Takes `datetime.now()` as an explicit argument. -/
def rate_limit_user (now : ℚ) (ud : UserData) : Bool × UserData :=
  match ud.last_request with
  | some lr =>
    if now - lr < 5 then (true, ud)
    else (false, ⟨some now, ud.weather_data⟩)
  | none => (false, ⟨some now, ud.weather_data⟩)

/-! ### Retry session configuration (lines 61-69) -/

structure RetryConfig where
  retries : Nat
  backoff_factor : ℚ
deriving DecidableEq

/-- `retry(cache_session, retries=5, backoff_factor=0.2)`. -/
def retry_session : RetryConfig := ⟨5, 0.2⟩

structure OpenMeteoClient where
  session : RetryConfig
deriving DecidableEq

/-- `openmeteo_requests.Client(session=retry_session)` — the only consumer of
the retry session; no handler ever calls it. -/
def openmeteo : OpenMeteoClient := ⟨retry_session⟩

/-! ### Keyboards -/

/-- An inline keyboard: rows of `(label, callback_data)` buttons. -/
abbrev Keyboard := List (List (String × String))

def main_menu : Keyboard :=
  [[("🌦️ Weather", "weather"), ("❓ Ask Question", "ask")],
   [("🌱 Eco Tips", "tips"), ("📅 Events", "events")],
   [("💧 Water Tips", "water"), ("⚠️ Disaster Prep", "disaster")],
   [("📜 Climate Laws", "laws"), ("ℹ️ About", "about")]]

def weather_menu : Keyboard :=
  [[("🌦️ Get Weather Again", "weather"), ("🔙 Back", "back")]]

def disaster_menu : Keyboard :=
  [[("🔥 Wildfires", "prep_wildfire"), ("🌀 Typhoons", "prep_typhoon")],
   [("🌊 Floods", "prep_flood"), ("🌋 Earthquakes", "prep_earthquake")],
   [("🌡️ Heatwaves", "prep_heatwave"), ("🌫️ Smog", "prep_smog")],
   [("🔙 Back", "back")]]

def laws_menu : Keyboard :=
  [[("Clean Air Act", "law_air"), ("Clean Water Act", "law_water")],
   [("Waste Management", "law_waste"), ("Climate Change", "law_climate")],
   [("🔙 Back", "back")]]

def back_button : Keyboard := [[("🔙 Back", "back")]]

/-! ### Exceptions, network outcomes and observable effects -/

/-- Python exceptions relevant to the gateway's `except` clauses. -/
inductive PyExn where
  | timeoutExn
  | requestExn (msg : String)
  | urlErrorExn (msg : String)
  | jsonDecodeExn (msg : String)
  | otherExn (msg : String)
deriving DecidableEq

/-- What a single outbound HTTP call does. `success` carries the parsed
payload of interest; `badJson` is a 2xx response whose body fails to parse;
`otherFailure` is any other exception raised during the call. -/
inductive FetchOutcome (α : Type) where
  | success (payload : α)
  | timeout
  | httpError (code : Nat)
  | transportError (msg : String)
  | badJson
  | otherFailure (msg : String)
deriving DecidableEq

/-- Observable side effects of a handler invocation. -/
inductive Effect where
  | answerCallback
  | typing
  | sendMessage (text : String) (markup : Keyboard)
  | httpGet (endpoint : String) (query : String)
deriving DecidableEq

def isHttpGet : Effect → Bool
  | .httpGet _ _ => true
  | _ => false

/-- Number of outbound HTTP calls in an effect trace. -/
def countHttp (effs : List Effect) : Nat := (effs.filter isHttpGet).length

/-! ### AIService (`fetch_ai_response` and its call-site wrappers) -/

def deepseekUrl : String :=
  "https://betadash-api-swordslush-production.up.railway.app/Deepseek-R1"

/-- Find the closing `**` for `re.sub(r'\*\*(.*?)\*\*', ...)`: the text up to
the first `**` and the remainder after it. `(.*?)` cannot cross a newline. -/
def findBoldClose : List Char → Option (List Char × List Char)
  | [] => none
  | '*' :: '*' :: rest => some ([], rest)
  | '\n' :: _ => none
  | c :: rest => (findBoldClose rest).map (fun p => (c :: p.1, p.2))

/-- `re.sub(r'\*\*(.*?)\*\*', r'*\1*', content)`, fuelled for structural
recursion (the scan consumes at least one character per step). -/
def subBoldFuel : Nat → List Char → List Char
  | 0, l => l
  | _ + 1, [] => []
  | fuel + 1, '*' :: '*' :: rest =>
    match findBoldClose rest with
    | some (inner, after) => '*' :: (inner ++ '*' :: subBoldFuel fuel after)
    | none => '*' :: subBoldFuel fuel ('*' :: rest)
  | fuel + 1, c :: rest => c :: subBoldFuel fuel rest

def subBoldStars (l : List Char) : List Char := subBoldFuel l.length l

/-- `re.sub(r'\n{3,}', '\n\n', content)`: runs of three or more newlines
become exactly two; `pending` counts the newline run being scanned. -/
def collapseNewlinesAux : Nat → List Char → List Char
  | pending, [] => if pending ≥ 3 then ['\n', '\n'] else List.replicate pending '\n'
  | pending, c :: rest =>
    if c = '\n' then collapseNewlinesAux (pending + 1) rest
    else (if pending ≥ 3 then ['\n', '\n'] else List.replicate pending '\n')
          ++ c :: collapseNewlinesAux 0 rest

def collapseNewlines (l : List Char) : List Char := collapseNewlinesAux 0 l

/-- The two Telegram-formatting substitutions applied to the AI content. -/
def formatAiContent (s : String) : String := ⟨collapseNewlines (subBoldStars s.data)⟩

/-- Body of the `try:` block of `AIService.fetch_ai_response` after the
request. The network payload is the optional `"response"` field of the parsed
JSON body (`none` models a body without that key). -/
def fetch_ai_try (maxTokens : Nat) (net : FetchOutcome (Option String)) :
    Except PyExn String :=
  match net with
  | .success respField =>
    let content := formatAiContent (respField.getD "⚠️ No response from DeepSeek API.")
    .ok (if content.length > maxTokens then ⟨content.data.take maxTokens⟩ ++ "..." else content)
  | .timeout => .error .timeoutExn
  | .httpError code => .error (.requestExn (toString code))
  | .transportError msg => .error (.requestExn msg)
  | .badJson => .error (.requestExn "Invalid JSON body")
  | .otherFailure msg => .error (.otherExn msg)

/-- `AIService.fetch_ai_response`: a single `requests.get` (recorded as the
one `httpGet` effect) wrapped in `except Timeout / except RequestException /
except Exception` clauses, each returning a normal message. -/
def fetch_ai_response (prompt system_message : String) (max_tokens : Nat)
    (net : FetchOutcome (Option String)) : List Effect × Except PyExn String :=
  let full_prompt := pyStripStr
    (if system_message != "" then system_message ++ "\n\n" ++ prompt else prompt)
  ([.httpGet deepseekUrl full_prompt],
   match fetch_ai_try max_tokens net with
   | .ok s => .ok s
   | .error .timeoutExn =>
     .ok "⚠️ Aero Bot service is taking too long to respond. Please try again later."
   | .error (.requestExn _) =>
     .ok "⚠️ Aero Bot service is currently unavailable. Please try again later."
   | .error _ => .ok "⚠️ An unexpected error occurred. Please try again.")

/-- `ask_ai(question)`. -/
def ask_ai (question : String) (net : FetchOutcome (Option String)) :
    List Effect × Except PyExn String :=
  fetch_ai_response question
    "You\'re a climate scientist. Provide accurate, concise answers to climate questions, maximum 200 words."
    1500 net

/-- `get_eco_tips()`. -/
def get_eco_tips (net : FetchOutcome (Option String)) :
    List Effect × Except PyExn String :=
  let r := fetch_ai_response "Provide 5 practical eco-friendly tips with emojis maximum 200 words"
    "You\'re an environmental expert. Provide actionable eco tips, maximum 200 words."
    1000 net
  (r.1, r.2.map (fun s => "🌿 *Eco Tips* 🌿\n\n" ++ s))

/-- `get_water_tips(region=None)`. -/
def get_water_tips (region : Option String) (net : FetchOutcome (Option String)) :
    List Effect × Except PyExn String :=
  let prompt := match region with
    | some r => "Provide 5 water conservation tips for " ++ r ++ "."
    | none => "Provide 5 general water conservation tips, maximum 200 words."
  let r := fetch_ai_response prompt
    "You\'re a water conservation expert. Provide practical tips with emojis, maximum 200 words."
    1000 net
  (r.1, r.2.map (fun s => "💧 *Water-Saving Tips* 💧\n\n" ++ s))

/-- Python `str.capitalize()`. -/
def pyCapitalize (s : String) : String :=
  match s.data with
  | [] => ""
  | c :: rest => ⟨c.toUpper :: rest.map Char.toLower⟩

/-- `get_disaster_prep(disaster_type)`. -/
def get_disaster_prep (disaster_type : String) (net : FetchOutcome (Option String)) :
    List Effect × Except PyExn String :=
  let r := fetch_ai_response
    ("Provide a 5-step preparedness guide for " ++ disaster_type ++ ", maximum 200 words.")
    "You\'re a disaster preparedness expert. Provide clear, actionable steps with emojis, maximum 200 words."
    1200 net
  (r.1, r.2.map (fun s =>
    "⚠️ *" ++ pyCapitalize disaster_type ++ " Preparedness* ⚠️\n\n" ++ s))

/-! ### WeatherService -/

def kaizUrl : String := "https://kaiz-apis.gleeze.com/api/weather"

/-- `city.replace(' ', '+')`. -/
def replaceSpacePlus (s : String) : String :=
  ⟨s.data.map (fun c => if c = ' ' then '+' else c)⟩

/-- Body of the `try:` of `WeatherService.get_weather_data`. A `success`
payload of `none` models a falsy body or one without the `"0"` key. -/
def get_weather_try (net : FetchOutcome (Option WeatherData)) :
    Except PyExn (Option WeatherData) :=
  match net with
  | .success d => .ok d
  | .timeout => .error .timeoutExn
  | .httpError code => .error (.requestExn (toString code))
  | .transportError msg => .error (.requestExn msg)
  | .badJson => .error (.requestExn "Invalid JSON body")
  | .otherFailure msg => .error (.otherExn msg)

/-- `WeatherService.get_weather_data(city)`: one `requests.get` to the single
Kaiz provider; `except Exception` turns every failure into `None`. -/
def get_weather_data (city : String) (net : FetchOutcome (Option WeatherData)) :
    List Effect × Except PyExn (Option WeatherData) :=
  ([.httpGet kaizUrl (clean_input (replaceSpacePlus city))],
   match get_weather_try net with
   | .ok d => .ok d
   | .error _ => .ok none)

/-- `WeatherService.get_weather_description(skycode)`. -/
def get_weather_description (skycode : String) : String :=
  if skycode = "0" then "☀️ Clear sky"
  else if skycode = "1" then "🌤️ Mostly sunny"
  else if skycode = "2" then "⛅ Partly cloudy"
  else if skycode = "3" then "☁️ Mostly cloudy"
  else if skycode = "4" then "🌧️ Light rain"
  else if skycode = "5" then "🌧️ Rain"
  else if skycode = "6" then "🌧️ Heavy rain"
  else if skycode = "7" then "⛈️ Thunderstorm"
  else if skycode = "8" then "🌨️ Snow"
  else if skycode = "9" then "🌫️ Fog"
  else if skycode = "34" then "🌤️ Mostly sunny"
  else "Unknown weather (code: " ++ skycode ++ ")"

/-- `WeatherService.get_heat_advisory(temp, feelslike)`. -/
def get_heat_advisory (temp feelslike : ℚ) : String × String :=
  let temp_diff := feelslike - temp
  if temp ≥ 40 then
    ("Extreme Heat Danger", "🔥 Extreme heat warning! Avoid outdoor activities and stay hydrated")
  else if temp ≥ 35 then
    if temp_diff > 5 then ("High Heat & Humidity", "🥵 Very hot and humid. Limit outdoor exposure")
    else ("High Heat", "☀️ Very hot - stay in shade and drink water")
  else if temp ≥ 30 then
    if temp_diff > 5 then ("Hot & Humid", "😓 Hot and sticky - take frequent breaks in shade")
    else ("Warm", "☀️ Warm weather - stay hydrated")
  else ("Mild", "😌 Comfortable temperature")

def strLower (s : String) : String := ⟨s.data.map Char.toLower⟩

def listStartsWith : List Char → List Char → Bool
  | [], _ => true
  | _ :: _, [] => false
  | a :: as, b :: bs => a == b && listStartsWith as bs

/-- `needle in hay` on strings. -/
def listContainsSub (needle : List Char) : List Char → Bool
  | [] => needle.isEmpty
  | c :: rest => listStartsWith needle (c :: rest) || listContainsSub needle rest

def containsSub (hay needle : String) : Bool := listContainsSub needle.data hay.data

/-- `WeatherService.format_simple_forecast(forecasts)`. -/
def format_simple_forecast (forecasts : List ForecastEntry) : String :=
  String.intercalate "\n" ((forecasts.take 5).map (fun f =>
    let conditions := f.skytextday
    let lower := strLower conditions
    let emoji :=
      if containsSub lower "sunny" then "☀️"
      else if containsSub lower "rain" then "🌧️"
      else if containsSub lower "cloud" then "⛅"
      else "🌤️"
    emoji ++ " " ++ f.shortday ++ ": " ++ f.high ++ "°C/" ++ f.low ++ "°C ("
      ++ conditions ++ ", " ++ f.precip ++ "% rain)"))

/-- The message composed by `weather_location_handler` on success. Numeric
fields are rendered through `toString ℚ` (a modelling simplification of
Python's string interpolation of the JSON values). -/
def weather_report_message (wd : WeatherData) : String :=
  let current := wd.current
  let advisory := get_heat_advisory current.temperature current.feelslike
  "🌤️ *Current Weather in " ++ wd.location.name ++ "*\n"
    ++ "📅 " ++ current.day ++ ", " ++ current.date ++ "\n"
    ++ "⏰ " ++ current.observationtime ++ "\n\n"
    ++ current.skytext ++ "\n"
    ++ "🌡️ Temperature: " ++ toString current.temperature ++ "°C (Feels like "
    ++ toString current.feelslike ++ "°C)\n"
    ++ "💧 Humidity: " ++ current.humidity ++ "%\n"
    ++ "🌬️ Wind: " ++ current.winddisplay ++ "\n\n"
    ++ "⚠️ *" ++ advisory.1 ++ "*\n" ++ advisory.2 ++ "\n\n"
    ++ "🌤️ *5-Day Weather Forecast:*\n" ++ format_simple_forecast wd.forecast

/-! ### News (`get_climate_events`) -/

def gnewsUrl : String := "https://gnews.io/api/v4/search"

def newsBaseQuery : String :=
  "climate OR weather OR disaster OR flood OR typhoon OR earthquake"

/-- An entry of the GNews `articles` array, restricted to the fields read;
`none` models a missing key (the code reads them with `.get` defaults). -/
structure Article where
  title : Option String
  description : Option String
  sourceName : Option String
  publishedAt : Option String
  url : Option String
deriving DecidableEq

def monthAbbr (m : Nat) : String :=
  if m = 1 then "Jan" else if m = 2 then "Feb" else if m = 3 then "Mar"
  else if m = 4 then "Apr" else if m = 5 then "May" else if m = 6 then "Jun"
  else if m = 7 then "Jul" else if m = 8 then "Aug" else if m = 9 then "Sep"
  else if m = 10 then "Oct" else if m = 11 then "Nov" else "Dec"

def twoDigits (a b : Char) : Nat := (a.toNat - 48) * 10 + (b.toNat - 48)

/-- `datetime.strptime(published_at, "%Y-%m-%dT%H:%M:%SZ")` followed by
`strftime("%b %d, %Y")`; `none` when the string does not match the format
(modelled for the canonical zero-padded form). -/
def formatGNewsDate (s : String) : Option String :=
  match s.data with
  | [y1, y2, y3, y4, '-', m1, m2, '-', d1, d2, 'T', h1, h2, ':', n1, n2, ':', s1, s2, 'Z'] =>
    if ([y1, y2, y3, y4, m1, m2, d1, d2, h1, h2, n1, n2, s1, s2].all Char.isDigit)
        && 1 ≤ twoDigits m1 m2 && twoDigits m1 m2 ≤ 12
        && 1 ≤ twoDigits d1 d2 && twoDigits d1 d2 ≤ 31
        && twoDigits h1 h2 ≤ 23 && twoDigits n1 n2 ≤ 59 && twoDigits s1 s2 ≤ 61 then
      some (monthAbbr (twoDigits m1 m2) ++ " " ++ ⟨[d1, d2]⟩ ++ ", " ++ ⟨[y1, y2, y3, y4]⟩)
    else none
  | _ => none

/-- One article's section of the news message (the loop body). -/
def formatArticle (a : Article) : String :=
  let title := a.title.getD "No title"
  let description := a.description.getD ""
  let source := a.sourceName.getD "Unknown source"
  let published := a.publishedAt.getD ""
  let url := a.url.getD "#"
  let dateStr :=
    if published = "" then ""
    else match formatGNewsDate published with
      | some d => d
      | none => (⟨published.data.take 10⟩ : String)
  "📰 *" ++ title ++ "*\n" ++ description ++ "\n📡 Source: " ++ source ++ "\n"
    ++ (if dateStr = "" then "" else "📅 Date: " ++ dateStr ++ "\n")
    ++ "🔗 [Read more](" ++ url ++ ")\n\n"

/-- Body of the `try:` of `get_climate_events` after `urlopen`. The payload is
the parsed `articles` array. -/
def get_climate_events_try (net : FetchOutcome (List Article)) : Except PyExn String :=
  match net with
  | .success articles =>
    .ok (if articles.isEmpty then
           "🌍 No climate news found currently. Check back later for updates!"
         else
           "🌦️ *Climate News Updates*\n\n"
             ++ String.join ((articles.take 3).map formatArticle))
  | .timeout => .error (.urlErrorExn "timed out")
  | .httpError code => .error (.urlErrorExn (toString code))
  | .transportError msg => .error (.urlErrorExn msg)
  | .badJson => .error (.jsonDecodeExn "Expecting value")
  | .otherFailure msg => .error (.otherExn msg)

/-- `get_climate_events(city=None)`: one `urlopen` to GNews (recorded with the
un-encoded query string), with `except URLError / except JSONDecodeError /
except Exception` clauses each returning a normal message. -/
def get_climate_events (city : Option String) (net : FetchOutcome (List Article)) :
    List Effect × Except PyExn String :=
  let query := newsBaseQuery ++ (match city with | some c => " AND " ++ c | none => "")
  ([.httpGet gnewsUrl query],
   match get_climate_events_try net with
   | .ok s => .ok s
   | .error (.urlErrorExn _) => .ok "⚠️ Could not fetch climate news. Please try again later."
   | .error (.jsonDecodeExn _) => .ok "⚠️ Error processing news data. Please try again."
   | .error _ => .ok "⚠️ An error occurred while fetching climate news.")

/-! ### Philippine Environmental Laws (static reference data) -/

structure LawEntry where
  title : String
  summary : String
  key_provisions : List String
  scope : String
  irr : String
  penalty : String
  imprisonment : String
  enforcement : String
  link : String
deriving DecidableEq

def PH_LAWS : List (String × LawEntry) :=
  [("law_waste",
    { title := "RA 9003 – Ecological Solid Waste Management Act (2000)"
      summary := "Comprehensive legislation mandating proper segregation, recycling, composting, and disposal of solid waste through the establishment of Materials Recovery Facilities (MRFs) in every barangay."
      key_provisions :=
        ["Mandatory segregation at source (household level)",
         "Prohibition of open dumping and burning of waste",
         "Establishment of sanitary landfills",
         "Extended Producer Responsibility (EPR) for manufacturers"]
      scope := "Applies to all waste generators including households, institutions, commercial establishments, and industries"
      irr := "DENR Administrative Order No. 2001-34"
      penalty := "Fines from ₱300 to ₱1,000 for individuals; ₱5,000 to ₱200,000 for establishments"
      imprisonment := "1 to 15 days community service for individuals; 1-6 years for serious violations"
      enforcement := "Local government units (LGUs) with DENR oversight"
      link := "https://emb.gov.ph/wp-content/uploads/2015/09/RA-9003.pdf" }),
   ("law_water",
    { title := "RA 9275 – Philippine Clean Water Act (2004)"
      summary := "Comprehensive water quality management framework protecting all water bodies from land-based pollution sources including industries, commercial establishments, and agricultural activities."
      key_provisions :=
        ["Wastewater charge system",
         "Water quality management areas",
         "Prohibition on discharging untreated wastewater",
         "Mandatory wastewater treatment facilities"]
      scope := "Covers all water bodies: inland surface waters, ground water, coastal and marine waters"
      irr := "DENR Administrative Order No. 2005-10"
      penalty := "Fines up to ₱200,000/day per violation for serious offenses"
      imprisonment := "Up to 10 years for willful violations"
      enforcement := "DENR through Environmental Management Bureau (EMB)"
      link := "https://emb.gov.ph/wp-content/uploads/2015/09/RA-9275.pdf" }),
   ("law_air",
    { title := "RA 8749 – Philippine Clean Air Act (1999)"
      summary := "National air quality management program that sets emission standards for mobile and stationary sources, and phases out ozone-depleting substances."
      key_provisions :=
        ["Ban on leaded gasoline",
         "Vehicle emission testing program",
         "Industrial emission limits",
         "Smoke Belching Reduction Program"]
      scope := "Regulates all potential air pollution sources including vehicles, factories, power plants, and open burning"
      irr := "DENR Administrative Order No. 2000-81"
      penalty := "Fines up to ₱100,000/day per violation"
      imprisonment := "Up to 6 years for gross violations"
      enforcement := "DENR-EMB with LGU and DOTC/LTO coordination"
      link := "https://emb.gov.ph/wp-content/uploads/2015/09/RA-8749.pdf" }),
   ("law_climate",
    { title := "RA 9729 – Climate Change Act (2009)"
      summary := "Establishes the Climate Change Commission and mandates the formulation of the National Climate Change Action Plan (NCCAP) to mainstream climate change in policy formulation."
      key_provisions :=
        ["Created the Climate Change Commission",
         "National Framework Strategy on Climate Change",
         "Local Climate Change Action Plans (LCCAPs)",
         "People\'s Survival Fund for adaptation projects"]
      scope := "Whole-of-government approach covering mitigation and adaptation strategies"
      irr := "DENR Administrative Order No. 2010-01"
      penalty := "Non-compliance may result in administrative sanctions (Sec. 19) including:\n• Suspension or cancellation of permits\n• Withholding of government benefits\n• Other appropriate penalties under existing laws"
      imprisonment := "Violations may be subject to penalties under:\n• Revised Penal Code\n• Other relevant environmental laws\n• Implementing rules of specific provisions"
      enforcement := "Climate Change Commission with all government agencies"
      link := "https://climate.emb.gov.ph/?page_id=68" })]

/-- `query.data in PH_LAWS` / `PH_LAWS[query.data]`. -/
def phLawsFind (key : String) : Option LawEntry :=
  (PH_LAWS.find? (fun p => p.1 == key)).map (fun p => p.2)

def lawMessage (law : LawEntry) : String :=
  "📘 *" ++ law.title ++ "*\n\n"
    ++ "📝 *Summary:* " ++ law.summary ++ "\n\n"
    ++ "📄 *Implementing Rules:* " ++ law.irr ++ "\n\n"
    ++ "💸 *Fine:* " ++ law.penalty ++ "\n\n"
    ++ "🕒 *Imprisonment:* " ++ law.imprisonment ++ "\n\n"
    ++ "🔗 [Read the full law](" ++ law.link ++ ")"

/-! ### Handlers and conversation dispatch -/

/-- The ambient world of one handler invocation: the clock and what each of
the three outbound services would do if called. -/
structure Env where
  now : ℚ
  firstName : String
  aiNet : FetchOutcome (Option String)
  weatherNet : FetchOutcome (Option WeatherData)
  newsNet : FetchOutcome (List Article)

def exceptDecEq {ε α : Type} [DecidableEq ε] [DecidableEq α] :
    DecidableEq (Except ε α) := fun x y =>
  match x, y with
  | .ok a, .ok b =>
    if h : a = b then isTrue (by rw [h])
    else isFalse (by intro hc; cases hc; exact h rfl)
  | .error a, .error b =>
    if h : a = b then isTrue (by rw [h])
    else isFalse (by intro hc; cases hc; exact h rfl)
  | .ok _, .error _ => isFalse (by intro hc; cases hc)
  | .error _, .ok _ => isFalse (by intro hc; cases hc)

instance {ε α : Type} [DecidableEq ε] [DecidableEq α] : DecidableEq (Except ε α) :=
  exceptDecEq

/-- Result of a handler: its effect trace and either the returned
conversation state with the updated context, or a propagated exception. -/
structure HOut where
  effects : List Effect
  result : Except PyExn (Int × BotCtx)
deriving DecidableEq

/-- Returned state of a handler invocation, when it returned normally. -/
def stateOf (h : HOut) : Option Int :=
  match h.result with
  | .ok (s, _) => some s
  | .error _ => none

/-- `start(update, context)`: replies with the welcome text and the main
menu, clears `chat_data` (and nothing else) and returns `MAIN_MENU`. -/
def start (ctx : BotCtx) (env : Env) : HOut :=
  ⟨[.sendMessage
      ("🌍 Hello " ++ env.firstName ++ "! Welcome to *AeroBot* 🌱\n\n"
        ++ "I\'m your climate and weather assistant. Here\'s what I can help with:\n"
        ++ "• Real-time weather data and forecasts 🌦️\n"
        ++ "• Climate change information and tips 🌱\n"
        ++ "• Disaster preparedness guides ⚠️\n"
        ++ "• Environmental laws and regulations 📜\n\n"
        ++ "How can I assist you today?")
      main_menu],
   .ok (MAIN_MENU, ⟨ctx.user_data, []⟩)⟩

/-- `cancel(update, context)`. -/
def cancel (ctx : BotCtx) : HOut :=
  ⟨[.sendMessage "🌱 Thank you for using AeroBot!" main_menu],
   .ok (END_CONVERSATION, ctx)⟩

/-- `"a_b".split('_')`. -/
def splitOnChar (sep : Char) : List Char → List (List Char)
  | [] => [[]]
  | c :: rest =>
    let r := splitOnChar sep rest
    if c = sep then [] :: r
    else match r with
      | [] => [[c]]
      | h :: t => (c :: h) :: t

def pyStartsWith (pre s : String) : Bool := listStartsWith pre.data s.data

/-- `main_menu_handler(update, context)`: dispatch on `query.data`. -/
def main_menu_handler (data : String) (ctx : BotCtx) (env : Env) : HOut :=
  if data = "back" then
    ⟨[.answerCallback] ++ [.sendMessage "🌍 Main Menu 🌱\n\nSelect an option:" main_menu],
     .ok (MAIN_MENU, ctx)⟩
  else if data = "weather" then
    ⟨[.answerCallback] ++ [.sendMessage "🌇 Enter a city name for weather information:" back_button],
     .ok (WEATHER_LOCATION, ctx)⟩
  else if data = "ask" then
    ⟨[.answerCallback] ++ [.sendMessage "🌡️ What climate-related question would you like to ask?" back_button],
     .ok (ASK_QUESTION, ctx)⟩
  else if data = "tips" then
    match get_eco_tips env.aiNet with
    | (eff, .error e) => ⟨[.answerCallback] ++ [.typing] ++ eff, .error e⟩
    | (eff, .ok tips) =>
      ⟨[.answerCallback] ++ [.typing] ++ eff
        ++ [.sendMessage tips [[("🔄 More Tips", "tips")], [("🏠 Main Menu", "back")]]],
       .ok (MAIN_MENU, ctx)⟩
  else if data = "events" then
    ⟨[.answerCallback] ++ [.sendMessage "📍 Enter a city for local events or leave blank for global events:" back_button],
     .ok (EVENTS_LOCATION, ctx)⟩
  else if data = "water" then
    match get_water_tips none env.aiNet with
    | (eff, .error e) => ⟨[.answerCallback] ++ [.typing] ++ eff, .error e⟩
    | (eff, .ok tips) =>
      ⟨[.answerCallback] ++ [.typing] ++ eff
        ++ [.sendMessage tips [[("🔄 More Water Tips", "water")], [("🏠 Main Menu", "back")]]],
       .ok (MAIN_MENU, ctx)⟩
  else if data = "disaster" then
    ⟨[.answerCallback] ++ [.sendMessage "⚠️ Select disaster type for preparedness info:" disaster_menu],
     .ok (MAIN_MENU, ctx)⟩
  else if data = "laws" then
    ⟨[.answerCallback] ++ [.sendMessage "📜 Select a climate law to view details:" laws_menu],
     .ok (MAIN_MENU, ctx)⟩
  else if data = "about" then
    ⟨[.answerCallback] ++ [.sendMessage
        ("*AeroBot* 🌱\n\n"
          ++ "An advanced climate and weather assistant bot.\n\n"
          ++ "Features:\n"
          ++ "• Accurate weather data from multiple sources\n"
          ++ "• Climate change information\n"
          ++ "• Disaster preparedness guides\n"
          ++ "• Environmental law database\n"
          ++ "\n\nGroup 4 - Super Science\n"
          ++ "\nDeveloped with ❤️ for the planet")
        [[("🏠 Main Menu", "back")]]],
     .ok (MAIN_MENU, ctx)⟩
  else if pyStartsWith "prep_" data then
    match get_disaster_prep (⟨(splitOnChar '_' data.data).getD 1 []⟩ : String) env.aiNet with
    | (eff, .error e) => ⟨[.answerCallback] ++ [.typing] ++ eff, .error e⟩
    | (eff, .ok guide) =>
      ⟨[.answerCallback] ++ [.typing] ++ eff
        ++ [.sendMessage guide [[("⚠️ More Disaster Prep", "disaster")], [("🏠 Main Menu", "back")]]],
       .ok (MAIN_MENU, ctx)⟩
  else
    match phLawsFind data with
    | some law =>
      ⟨[.answerCallback] ++ [.sendMessage (lawMessage law)
          [[("📜 More Laws", "laws")], [("🏠 Main Menu", "back")]]],
       .ok (MAIN_MENU, ctx)⟩
    | none => ⟨[.answerCallback], .ok (MAIN_MENU, ctx)⟩

/-- `weather_location_handler(update, context)`. The `msg` argument is
`update.message.text` when a message is present. -/
def weather_location_handler (msg : Option String) (ctx : BotCtx) (env : Env) : HOut :=
  match msg with
  | none => ⟨[], .ok (MAIN_MENU, ctx)⟩
  | some t =>
    if !validate_city_name (clean_input t) then
      ⟨[.sendMessage "⚠️ Please enter a valid city name (max 50 characters)." back_button],
       .ok (WEATHER_LOCATION, ctx)⟩
    else
      match get_weather_data (clean_input t) env.weatherNet with
      | (eff, .error e) => ⟨[.typing] ++ eff, .error e⟩
      | (eff, .ok none) =>
        ⟨[.typing] ++ eff
          ++ [.sendMessage ("❌ Couldn\'t find weather data for \'" ++ clean_input t
                ++ "\'. Try a nearby city.") back_button],
         .ok (WEATHER_LOCATION, ctx)⟩
      | (eff, .ok (some wd)) =>
        ⟨[.typing] ++ eff
          ++ [.sendMessage (weather_report_message wd)
               [[("🔄 Refresh Weather", "weather")], [("🔙 Main Menu", "back")]]],
         .ok (MAIN_MENU, ⟨⟨ctx.user_data.last_request, some wd⟩, ctx.chat_data⟩)⟩

/-- `ask_question_handler(update, context)`. -/
def ask_question_handler (msg : Option String) (ctx : BotCtx) (env : Env) : HOut :=
  match msg with
  | none => ⟨[], .ok (MAIN_MENU, ctx)⟩
  | some t =>
    if !validate_question (clean_input t) then
      ⟨[.sendMessage "⚠️ Please enter a valid question (max 200 characters)." back_button],
       .ok (ASK_QUESTION, ctx)⟩
    else
      match ask_ai (clean_input t) env.aiNet with
      | (eff, .error e) => ⟨[.typing] ++ eff, .error e⟩
      | (eff, .ok answer) =>
        ⟨[.typing] ++ eff
          ++ [.sendMessage answer [[("❓ Ask Another", "ask")], [("🏠 Main Menu", "back")]]],
         .ok (MAIN_MENU, ctx)⟩

/-- `events_location_handler(update, context)`. An empty (sanitized) location
is allowed and is passed as `None` to `get_climate_events`. -/
def events_location_handler (msg : Option String) (ctx : BotCtx) (env : Env) : HOut :=
  match msg with
  | none => ⟨[], .ok (MAIN_MENU, ctx)⟩
  | some t =>
    if (clean_input t != "") && !validate_city_name (clean_input t) then
      ⟨[.sendMessage "⚠️ Please enter a valid city name (max 50 characters)." back_button],
       .ok (EVENTS_LOCATION, ctx)⟩
    else
      match get_climate_events (if clean_input t != "" then some (clean_input t) else none)
              env.newsNet with
      | (eff, .error e) => ⟨[.typing] ++ eff, .error e⟩
      | (eff, .ok events) =>
        ⟨[.typing] ++ eff
          ++ [.sendMessage events [[("📅 More Events", "events")], [("🏠 Main Menu", "back")]]],
         .ok (MAIN_MENU, ctx)⟩

/-- Incoming update shapes routed by the `ConversationHandler`. -/
inductive TgEvent where
  | command (name : String)
  | textMsg (body : String)
  | callback (data : String)

/-- The `fallbacks=[CommandHandler("cancel", cancel), CommandHandler("start", start)]`. -/
def fallback_dispatch (ev : TgEvent) (ctx : BotCtx) (env : Env) : Option HOut :=
  match ev with
  | .command n =>
    if n = "cancel" then some (cancel ctx)
    else if n = "start" then some (start ctx env)
    else none
  | _ => none

/-- The `states=` routing of `conv_handler`: per-state handler lists, falling
back to the command fallbacks when no state handler matches. The message
handlers use `filters.TEXT & ~filters.COMMAND`; the non-menu states accept
callbacks only through `pattern='^back$'`. A state with no matching handler
(including the never-entered `WATER_TIPS_LOCATION`) reaches only fallbacks. -/
def conv_dispatch (state : Int) (ev : TgEvent) (ctx : BotCtx) (env : Env) : Option HOut :=
  if state = MAIN_MENU then
    match ev with
    | .callback d => some (main_menu_handler d ctx env)
    | _ => fallback_dispatch ev ctx env
  else if state = WEATHER_LOCATION then
    match ev with
    | .textMsg t => some (weather_location_handler (some t) ctx env)
    | .callback d => if d = "back" then some (main_menu_handler d ctx env)
                     else fallback_dispatch ev ctx env
    | _ => fallback_dispatch ev ctx env
  else if state = ASK_QUESTION then
    match ev with
    | .textMsg t => some (ask_question_handler (some t) ctx env)
    | .callback d => if d = "back" then some (main_menu_handler d ctx env)
                     else fallback_dispatch ev ctx env
    | _ => fallback_dispatch ev ctx env
  else if state = EVENTS_LOCATION then
    match ev with
    | .textMsg t => some (events_location_handler (some t) ctx env)
    | .callback d => if d = "back" then some (main_menu_handler d ctx env)
                     else fallback_dispatch ev ctx env
    | _ => fallback_dispatch ev ctx env
  else fallback_dispatch ev ctx env

/-! ### Spec-side definition used to compare the spec's allow-list with the code -/

/-- Modelled from the spec: the allow-list `[A-Za-z0-9 ,.\-]` stated for
`validate_city` in §4.1. -/
def specCityAllowed (c : Char) : Bool :=
  c.isAlphanum || c = ' ' || c = ',' || c = '.' || c = '-'

/-- Modelled from the spec: `validate_city(text)` "rejects if length > 50 or
if any character outside `[A-Za-z0-9 ,.\-]` is present", and accepts
otherwise. -/
def spec_validate_city (t : String) : Bool :=
  decide (t.length ≤ 50) && t.data.all specCityAllowed

/-! ### Sample data for concrete instantiations -/

def sampleForecast : ForecastEntry :=
  { shortday := "Mon", skytextday := "Sunny", high := "31", low := "24", precip := "10" }

def sampleCurrent : WeatherCurrent :=
  { day := "Monday", date := "2025-05-05", observationtime := "10:00 AM"
    skytext := "Sunny", humidity := "70", winddisplay := "5 km/h"
    temperature := 31, feelslike := 33 }

def sampleWeather : WeatherData :=
  ⟨⟨"Cebu"⟩, sampleCurrent, [sampleForecast]⟩

def sampleCtx : BotCtx := ⟨⟨none, none⟩, []⟩

/-- An environment whose AI call succeeds and whose other services time out,
at clock time `t`. -/
def envAsk (t : ℚ) : Env := ⟨t, "A", .success (some "ok"), .timeout, .timeout⟩

/-- An environment in which every outbound service times out. -/
def envAllTimeout : Env := ⟨0, "A", .timeout, .timeout, .timeout⟩

/-- A context carrying a rate-limit timestamp, a weather payload and a
(nominal) `chat_data` entry. -/
def richCtx : BotCtx := ⟨⟨some 7, some sampleWeather⟩, [("k", "v")]⟩

/-! ### Auxiliary definitions for the proofs -/

/-- Whether an embedded Python call returned normally rather than raising. -/
def returnsNormally {ε α : Type} : Except ε α → Bool
  | .ok _ => true
  | .error _ => false

/-- Drop elements satisfying `p` from the end of a list (the second half of
`str.strip()`). -/
def dropTrail {α : Type} (p : α → Bool) (l : List α) : List α :=
  (l.reverse.dropWhile p).reverse

/-- Two adjacent characters are not both whitespace. -/
def spaceRel (a b : Char) : Prop := ¬(isSpaceChar a = true ∧ isSpaceChar b = true)

/-- Every whitespace character of the list is a plain `' '`. -/
def spacesOkL (l : List Char) : Prop := ∀ c ∈ l, isSpaceChar c = true → c = ' '

/-- No two adjacent whitespace characters. -/
def noAdjSpaces (l : List Char) : Prop := l.Chain' spaceRel

/-! ### Helper lemmas: `dropWhile` / `dropTrail` algebra -/

theorem dropWhile_head_not {α : Type} (p : α → Bool) :
    ∀ (l : List α) (c : α), (l.dropWhile p).head? = some c → p c = false := by
  intro l
  induction l with
  | nil => intro c h; simp [List.dropWhile] at h
  | cons a rest ih =>
    intro c h
    rw [List.dropWhile_cons] at h
    split at h
    · exact ih c h
    · rename_i hp
      simp only [List.head?_cons, Option.some.injEq] at h
      subst h
      simp only [Bool.not_eq_true] at hp
      exact hp

theorem dropWhile_id_of_head {α : Type} (p : α → Bool) (l : List α)
    (h : ∀ c, l.head? = some c → p c = false) : l.dropWhile p = l := by
  cases l with
  | nil => rfl
  | cons a rest =>
    have ha := h a rfl
    simp [List.dropWhile_cons, ha]

theorem mem_dropWhile {α : Type} (p : α → Bool) (l : List α) (c : α)
    (h : c ∈ l.dropWhile p) : c ∈ l := by
  have h2 := List.takeWhile_append_dropWhile (p := p) (l := l)
  rw [← h2]
  exact List.mem_append_right _ h

theorem chain_dropWhile {α : Type} {R : α → α → Prop} (p : α → Bool) (l : List α)
    (h : l.Chain' R) : (l.dropWhile p).Chain' R := by
  have h2 := List.takeWhile_append_dropWhile (p := p) (l := l)
  rw [← h2] at h
  exact (List.chain'_append.mp h).2.1

theorem all_dropWhile_nil {α : Type} (p : α → Bool) (l : List α) (h : l.all p = true) :
    l.dropWhile p = [] := by
  induction l with
  | nil => rfl
  | cons a rest ih =>
    simp only [List.all_cons, Bool.and_eq_true] at h
    rw [List.dropWhile_cons_of_pos h.1]
    exact ih h.2

theorem all_append_dropWhile {α : Type} (p : α → Bool) (l l2 : List α) (h : l.all p = true) :
    (l ++ l2).dropWhile p = l2.dropWhile p := by
  induction l with
  | nil => rfl
  | cons a rest ih =>
    simp only [List.all_cons, Bool.and_eq_true] at h
    rw [List.cons_append, List.dropWhile_cons_of_pos h.1]
    exact ih h.2

theorem not_all_append_dropWhile {α : Type} (p : α → Bool) (l l2 : List α)
    (h : l.all p = false) : (l ++ l2).dropWhile p = l.dropWhile p ++ l2 := by
  induction l with
  | nil => simp at h
  | cons a rest ih =>
    by_cases hp : p a = true
    · simp only [List.all_cons, hp, Bool.true_and] at h
      rw [List.cons_append, List.dropWhile_cons_of_pos hp, List.dropWhile_cons_of_pos hp]
      exact ih h
    · rw [List.cons_append, List.dropWhile_cons_of_neg hp, List.dropWhile_cons_of_neg hp]
      simp

theorem all_reverse_eq {α : Type} (p : α → Bool) (l : List α) :
    l.reverse.all p = l.all p := by
  simp [List.all_eq_true]

theorem all_dropTrail_nil {α : Type} (p : α → Bool) (l : List α) (h : l.all p = true) :
    dropTrail p l = [] := by
  unfold dropTrail
  rw [all_dropWhile_nil p l.reverse (by rw [all_reverse_eq]; exact h)]
  rfl

theorem dropTrail_cons_not_all {α : Type} (p : α → Bool) (c : α) (l : List α)
    (h : l.all p = false) : dropTrail p (c :: l) = c :: dropTrail p l := by
  unfold dropTrail
  rw [List.reverse_cons,
    not_all_append_dropWhile p l.reverse [c] (by rw [all_reverse_eq]; exact h),
    List.reverse_append]
  simp

theorem dropTrail_singleton_all {α : Type} (p : α → Bool) (c : α) (l : List α)
    (hall : l.all p = true) (hc : p c = false) : dropTrail p (c :: l) = [c] := by
  unfold dropTrail
  rw [List.reverse_cons,
    all_append_dropWhile p l.reverse [c] (by rw [all_reverse_eq]; exact hall),
    List.dropWhile_cons_of_neg (by simp [hc])]
  rfl

theorem dropWhile_idem {α : Type} (p : α → Bool) (l : List α) :
    (l.dropWhile p).dropWhile p = l.dropWhile p := by
  apply dropWhile_id_of_head
  intro c h
  exact dropWhile_head_not p l c h

theorem dropTrail_idem {α : Type} (p : α → Bool) (l : List α) :
    dropTrail p (dropTrail p l) = dropTrail p l := by
  unfold dropTrail
  rw [List.reverse_reverse, dropWhile_idem]

theorem dropWhile_dropTrail_comm {α : Type} (p : α → Bool) (l : List α) :
    (dropTrail p l).dropWhile p = dropTrail p (l.dropWhile p) := by
  induction l with
  | nil => rfl
  | cons c rest ih =>
    by_cases hall : rest.all p = true
    · by_cases hc : p c = true
      · have hcall : (c :: rest).all p = true := by simp [List.all_cons, hc, hall]
        rw [all_dropTrail_nil p _ hcall, List.dropWhile_cons_of_pos hc,
          all_dropWhile_nil p rest hall]
        rfl
      · have hc2 : p c = false := by simpa using hc
        calc (dropTrail p (c :: rest)).dropWhile p
            = ([c] : List α).dropWhile p := by
              rw [dropTrail_singleton_all p c rest hall hc2]
          _ = [c] := by rw [List.dropWhile_cons_of_neg hc]
          _ = dropTrail p (c :: rest) := (dropTrail_singleton_all p c rest hall hc2).symm
          _ = dropTrail p ((c :: rest).dropWhile p) := by
              rw [List.dropWhile_cons_of_neg hc]
    · have hall2 : rest.all p = false := by simpa using hall
      rw [dropTrail_cons_not_all p c rest hall2]
      by_cases hc : p c = true
      · rw [List.dropWhile_cons_of_pos hc, List.dropWhile_cons_of_pos hc]
        exact ih
      · rw [List.dropWhile_cons_of_neg hc,
          show (c :: rest).dropWhile p = c :: rest from List.dropWhile_cons_of_neg hc,
          dropTrail_cons_not_all p c rest hall2]

theorem pyStrip_idem (l : List Char) : pyStrip (pyStrip l) = pyStrip l := by
  show (dropTrail isSpaceChar
      ((dropTrail isSpaceChar (l.dropWhile isSpaceChar)).dropWhile isSpaceChar))
    = dropTrail isSpaceChar (l.dropWhile isSpaceChar)
  rw [dropWhile_dropTrail_comm, dropWhile_idem, dropTrail_idem]

/-! ### Helper lemmas: the whitespace-collapsing pass -/

theorem mem_collapseAux :
    ∀ (b : Bool) (l : List Char) (c : Char),
      c ∈ collapseAux b l → (c ∈ l ∧ isSpaceChar c = false) ∨ c = ' ' := by
  intro b l
  induction l generalizing b with
  | nil => intro c h; simp [collapseAux] at h
  | cons d rest ih =>
    intro c h
    by_cases hs : isSpaceChar d = true
    · cases b with
      | true =>
        simp only [collapseAux, hs, if_true] at h
        rcases ih true c h with ⟨h1, h2⟩ | h1
        · exact Or.inl ⟨List.mem_cons_of_mem _ h1, h2⟩
        · exact Or.inr h1
      | false =>
        simp only [collapseAux, hs, if_true, Bool.false_eq_true, if_false,
          List.mem_cons] at h
        rcases h with h | h
        · exact Or.inr h
        · rcases ih true c h with ⟨h1, h2⟩ | h1
          · exact Or.inl ⟨List.mem_cons_of_mem _ h1, h2⟩
          · exact Or.inr h1
    · have hs2 : isSpaceChar d = false := by simpa using hs
      simp only [collapseAux, hs2, Bool.false_eq_true, if_false, List.mem_cons] at h
      rcases h with h | h
      · exact Or.inl ⟨by rw [h]; exact List.mem_cons_self _ _, by rw [h]; exact hs2⟩
      · rcases ih false c h with ⟨h1, h2⟩ | h1
        · exact Or.inl ⟨List.mem_cons_of_mem _ h1, h2⟩
        · exact Or.inr h1

theorem head_collapseAux_true :
    ∀ (l : List Char) (c : Char),
      (collapseAux true l).head? = some c → isSpaceChar c = false := by
  intro l
  induction l with
  | nil => intro c h; simp [collapseAux] at h
  | cons d rest ih =>
    intro c h
    by_cases hs : isSpaceChar d = true
    · simp only [collapseAux, hs, if_true] at h
      exact ih c h
    · have hs2 : isSpaceChar d = false := by simpa using hs
      simp only [collapseAux, hs2, Bool.false_eq_true, if_false, List.head?_cons,
        Option.some.injEq] at h
      rw [← h]
      exact hs2

theorem chain_collapseAux :
    ∀ (b : Bool) (l : List Char), (collapseAux b l).Chain' spaceRel := by
  intro b l
  induction l generalizing b with
  | nil => simp [collapseAux]
  | cons d rest ih =>
    by_cases hs : isSpaceChar d = true
    · cases b with
      | true =>
        simp only [collapseAux, hs, if_true]
        exact ih true
      | false =>
        simp only [collapseAux, hs, if_true, Bool.false_eq_true, if_false]
        rw [List.chain'_cons']
        refine ⟨?_, ih true⟩
        intro y hy
        have hny := head_collapseAux_true rest y hy
        intro hpair
        rw [hny] at hpair
        exact absurd hpair.2 (by simp)
    · have hs2 : isSpaceChar d = false := by simpa using hs
      simp only [collapseAux, hs2, Bool.false_eq_true, if_false]
      rw [List.chain'_cons']
      refine ⟨?_, ih false⟩
      intro y _ hpair
      rw [hs2] at hpair
      exact absurd hpair.1 (by simp)

theorem spacesOk_collapseAux (b : Bool) (l : List Char) : spacesOkL (collapseAux b l) := by
  intro c hc hsp
  rcases mem_collapseAux b l c hc with ⟨_, h2⟩ | h1
  · rw [h2] at hsp; exact absurd hsp (by simp)
  · exact h1

theorem collapseAux_id :
    ∀ (l : List Char), spacesOkL l → noAdjSpaces l →
      collapseAux false l = l ∧
      ((∀ c, l.head? = some c → isSpaceChar c = false) → collapseAux true l = l) := by
  intro l
  induction l with
  | nil => exact fun _ _ => ⟨rfl, fun _ => rfl⟩
  | cons d rest ih =>
    intro hok hch
    have hok2 : spacesOkL rest := fun c hc hs => hok c (List.mem_cons_of_mem _ hc) hs
    have hch2 : noAdjSpaces rest := (List.chain'_cons'.mp hch).2
    have hhd : ∀ y ∈ rest.head?, spaceRel d y := (List.chain'_cons'.mp hch).1
    obtain ⟨ih1, ih2⟩ := ih hok2 hch2
    by_cases hs : isSpaceChar d = true
    · have hd : d = ' ' := hok d (List.mem_cons_self _ _) hs
      have hrest : ∀ c, rest.head? = some c → isSpaceChar c = false := by
        intro c hc
        have hrel := hhd c hc
        by_contra hcc
        simp only [Bool.not_eq_false] at hcc
        exact hrel ⟨hs, hcc⟩
      constructor
      · show collapseAux false (d :: rest) = d :: rest
        simp only [collapseAux, hs, if_true, Bool.false_eq_true, if_false]
        rw [ih2 hrest, hd]
      · intro hhead
        have := hhead d rfl
        rw [hs] at this
        exact absurd this (by simp)
    · have hs2 : isSpaceChar d = false := by simpa using hs
      constructor
      · show collapseAux false (d :: rest) = d :: rest
        simp only [collapseAux, hs2, Bool.false_eq_true, if_false]
        rw [ih1]
      · intro _
        show collapseAux true (d :: rest) = d :: rest
        simp only [collapseAux, hs2, Bool.false_eq_true, if_false]
        rw [ih1]

/-! ### Helper lemmas: preservation through `pyStrip` and `filter` -/

theorem filter_all_self {α : Type} (p : α → Bool) (l : List α)
    (h : ∀ c ∈ l, p c = true) : l.filter p = l := by
  induction l with
  | nil => rfl
  | cons a rest ih =>
    simp [List.filter_cons, h a (List.mem_cons_self _ _),
      ih (fun c hc => h c (List.mem_cons_of_mem _ hc))]

theorem noAdj_reverse (l : List Char) (h : noAdjSpaces l) : noAdjSpaces l.reverse := by
  unfold noAdjSpaces at h ⊢
  rw [List.chain'_reverse]
  exact h.imp (fun a b hab hba => hab ⟨hba.2, hba.1⟩)

theorem mem_dropTrail {α : Type} (p : α → Bool) (l : List α) (c : α)
    (h : c ∈ dropTrail p l) : c ∈ l := by
  unfold dropTrail at h
  rw [List.mem_reverse] at h
  exact List.mem_reverse.mp (mem_dropWhile p l.reverse c h)

theorem noAdj_dropTrail (l : List Char) (h : noAdjSpaces l) :
    noAdjSpaces (dropTrail isSpaceChar l) := by
  unfold dropTrail
  exact noAdj_reverse _ (chain_dropWhile _ _ (noAdj_reverse _ h))

theorem mem_pyStrip (l : List Char) (c : Char) (h : c ∈ pyStrip l) : c ∈ l := by
  have h2 : c ∈ dropTrail isSpaceChar (l.dropWhile isSpaceChar) := h
  exact mem_dropWhile _ _ _ (mem_dropTrail _ _ _ h2)

theorem noAdj_pyStrip (l : List Char) (h : noAdjSpaces l) : noAdjSpaces (pyStrip l) := by
  show noAdjSpaces (dropTrail isSpaceChar (l.dropWhile isSpaceChar))
  exact noAdj_dropTrail _ (chain_dropWhile _ _ h)

/-! ### Helper lemmas: `cleanList` is `pyStrip` past the first application -/

theorem cleanList_props (l : List Char) :
    spacesOkL (cleanList l) ∧ noAdjSpaces (cleanList l) ∧
      ∀ c ∈ cleanList l, allowedInputChar c = true := by
  refine ⟨spacesOk_collapseAux _ _, chain_collapseAux _ _, ?_⟩
  intro c hc
  rcases mem_collapseAux false _ c hc with ⟨h1, _⟩ | h1
  · exact (List.mem_filter.mp h1).2
  · rw [h1]; decide

theorem cleanList_fixed (m : List Char) (hok : spacesOkL m) (hch : noAdjSpaces m)
    (hall : ∀ c ∈ m, allowedInputChar c = true) : cleanList m = pyStrip m := by
  unfold cleanList collapseWs
  rw [filter_all_self allowedInputChar (pyStrip m)
    (fun c hc => hall c (mem_pyStrip m c hc))]
  exact (collapseAux_id (pyStrip m)
    (fun c hc hs => hok c (mem_pyStrip m c hc) hs) (noAdj_pyStrip m hch)).1

/-! ### Helper lemmas: handler return-state ranges -/

theorem main_menu_handler_states (d : String) (ctx : BotCtx) (env : Env) (st : Int)
    (c2 : BotCtx) (h : (main_menu_handler d ctx env).result = .ok (st, c2)) :
    st = MAIN_MENU ∨ st = WEATHER_LOCATION ∨ st = ASK_QUESTION ∨ st = EVENTS_LOCATION := by
  unfold main_menu_handler at h
  by_cases h1 : d = "back"
  · rw [if_pos h1] at h
    injection h with e1; injection e1 with e2 e3; subst e2; decide
  rw [if_neg h1] at h
  by_cases h2 : d = "weather"
  · rw [if_pos h2] at h
    injection h with e1; injection e1 with e2 e3; subst e2; decide
  rw [if_neg h2] at h
  by_cases h3 : d = "ask"
  · rw [if_pos h3] at h
    injection h with e1; injection e1 with e2 e3; subst e2; decide
  rw [if_neg h3] at h
  by_cases h4 : d = "tips"
  · rw [if_pos h4] at h
    rcases hE : get_eco_tips env.aiNet with ⟨eff, res⟩
    rw [hE] at h
    cases res with
    | error e => exact Except.noConfusion h
    | ok tips => injection h with e1; injection e1 with e2 e3; subst e2; decide
  rw [if_neg h4] at h
  by_cases h5 : d = "events"
  · rw [if_pos h5] at h
    injection h with e1; injection e1 with e2 e3; subst e2; decide
  rw [if_neg h5] at h
  by_cases h6 : d = "water"
  · rw [if_pos h6] at h
    rcases hE : get_water_tips none env.aiNet with ⟨eff, res⟩
    rw [hE] at h
    cases res with
    | error e => exact Except.noConfusion h
    | ok tips => injection h with e1; injection e1 with e2 e3; subst e2; decide
  rw [if_neg h6] at h
  by_cases h7 : d = "disaster"
  · rw [if_pos h7] at h
    injection h with e1; injection e1 with e2 e3; subst e2; decide
  rw [if_neg h7] at h
  by_cases h8 : d = "laws"
  · rw [if_pos h8] at h
    injection h with e1; injection e1 with e2 e3; subst e2; decide
  rw [if_neg h8] at h
  by_cases h9 : d = "about"
  · rw [if_pos h9] at h
    injection h with e1; injection e1 with e2 e3; subst e2; decide
  rw [if_neg h9] at h
  by_cases hA : pyStartsWith "prep_" d = true
  · rw [if_pos hA] at h
    rcases hE : get_disaster_prep (⟨(splitOnChar '_' d.data).getD 1 []⟩ : String) env.aiNet
      with ⟨eff, res⟩
    rw [hE] at h
    cases res with
    | error e => exact Except.noConfusion h
    | ok guide => injection h with e1; injection e1 with e2 e3; subst e2; decide
  rw [if_neg hA] at h
  rcases hL : phLawsFind d with _ | law
  · rw [hL] at h
    injection h with e1; injection e1 with e2 e3; subst e2; decide
  · rw [hL] at h
    injection h with e1; injection e1 with e2 e3; subst e2; decide

theorem weather_location_handler_states (msg : Option String) (ctx : BotCtx) (env : Env)
    (st : Int) (c2 : BotCtx)
    (h : (weather_location_handler msg ctx env).result = .ok (st, c2)) :
    st = MAIN_MENU ∨ st = WEATHER_LOCATION := by
  cases msg with
  | none =>
    simp only [weather_location_handler] at h
    injection h with e1; injection e1 with e2 e3; subst e2; decide
  | some t =>
    simp only [weather_location_handler] at h
    by_cases hv : (!validate_city_name (clean_input t)) = true
    · rw [if_pos hv] at h
      injection h with e1; injection e1 with e2 e3; subst e2; decide
    rw [if_neg hv] at h
    rcases hE : get_weather_data (clean_input t) env.weatherNet with ⟨eff, res⟩
    rw [hE] at h
    cases res with
    | error e => exact Except.noConfusion h
    | ok d =>
      cases d with
      | none => injection h with e1; injection e1 with e2 e3; subst e2; decide
      | some wd => injection h with e1; injection e1 with e2 e3; subst e2; decide

theorem ask_question_handler_states (msg : Option String) (ctx : BotCtx) (env : Env)
    (st : Int) (c2 : BotCtx)
    (h : (ask_question_handler msg ctx env).result = .ok (st, c2)) :
    st = MAIN_MENU ∨ st = ASK_QUESTION := by
  cases msg with
  | none =>
    simp only [ask_question_handler] at h
    injection h with e1; injection e1 with e2 e3; subst e2; decide
  | some t =>
    simp only [ask_question_handler] at h
    by_cases hv : (!validate_question (clean_input t)) = true
    · rw [if_pos hv] at h
      injection h with e1; injection e1 with e2 e3; subst e2; decide
    rw [if_neg hv] at h
    rcases hE : ask_ai (clean_input t) env.aiNet with ⟨eff, res⟩
    rw [hE] at h
    cases res with
    | error e => exact Except.noConfusion h
    | ok answer => injection h with e1; injection e1 with e2 e3; subst e2; decide

theorem events_location_handler_states (msg : Option String) (ctx : BotCtx) (env : Env)
    (st : Int) (c2 : BotCtx)
    (h : (events_location_handler msg ctx env).result = .ok (st, c2)) :
    st = MAIN_MENU ∨ st = EVENTS_LOCATION := by
  cases msg with
  | none =>
    simp only [events_location_handler] at h
    injection h with e1; injection e1 with e2 e3; subst e2; decide
  | some t =>
    simp only [events_location_handler] at h
    by_cases hv : ((clean_input t != "") && !validate_city_name (clean_input t)) = true
    · rw [if_pos hv] at h
      injection h with e1; injection e1 with e2 e3; subst e2; decide
    rw [if_neg hv] at h
    rcases hE : get_climate_events
        (if clean_input t != "" then some (clean_input t) else none) env.newsNet
      with ⟨eff, res⟩
    rw [hE] at h
    cases res with
    | error e => exact Except.noConfusion h
    | ok events => injection h with e1; injection e1 with e2 e3; subst e2; decide

theorem fallback_dispatch_states (ev : TgEvent) (ctx : BotCtx) (env : Env) (res : HOut)
    (st : Int) (c2 : BotCtx) (hd : fallback_dispatch ev ctx env = some res)
    (h : res.result = .ok (st, c2)) : st = MAIN_MENU ∨ st = END_CONVERSATION := by
  cases ev with
  | command n =>
    simp only [fallback_dispatch] at hd
    by_cases h1 : n = "cancel"
    · rw [if_pos h1] at hd
      injection hd with e1
      rw [← e1] at h
      unfold cancel at h
      injection h with f1; injection f1 with f2 f3; subst f2; decide
    rw [if_neg h1] at hd
    by_cases h2 : n = "start"
    · rw [if_pos h2] at hd
      injection hd with e1
      rw [← e1] at h
      unfold start at h
      injection h with f1; injection f1 with f2 f3; subst f2; decide
    rw [if_neg h2] at hd
    exact Option.noConfusion hd
  | textMsg t => exact Option.noConfusion hd
  | callback d => exact Option.noConfusion hd

/-! ### Helper lemma: states reachable through the conversation dispatch -/

theorem conv_dispatch_states (s : Int) (ev : TgEvent) (ctx : BotCtx) (env : Env)
    (res : HOut) (st : Int) (c2 : BotCtx) (hd : conv_dispatch s ev ctx env = some res)
    (h : res.result = .ok (st, c2)) :
    st = MAIN_MENU ∨ st = WEATHER_LOCATION ∨ st = ASK_QUESTION ∨ st = EVENTS_LOCATION
      ∨ st = END_CONVERSATION := by
  have fb : fallback_dispatch ev ctx env = some res →
      st = MAIN_MENU ∨ st = WEATHER_LOCATION ∨ st = ASK_QUESTION ∨ st = EVENTS_LOCATION
        ∨ st = END_CONVERSATION := by
    intro hfb
    rcases fallback_dispatch_states ev ctx env res st c2 hfb h with h1 | h1
    · exact Or.inl h1
    · exact Or.inr (Or.inr (Or.inr (Or.inr h1)))
  have mm : ∀ d : String, main_menu_handler d ctx env = res →
      st = MAIN_MENU ∨ st = WEATHER_LOCATION ∨ st = ASK_QUESTION ∨ st = EVENTS_LOCATION
        ∨ st = END_CONVERSATION := by
    intro d e1
    rw [← e1] at h
    rcases main_menu_handler_states d ctx env st c2 h with h1 | h1 | h1 | h1
    · exact Or.inl h1
    · exact Or.inr (Or.inl h1)
    · exact Or.inr (Or.inr (Or.inl h1))
    · exact Or.inr (Or.inr (Or.inr (Or.inl h1)))
  unfold conv_dispatch at hd
  by_cases h0 : s = MAIN_MENU
  · rw [if_pos h0] at hd
    cases ev with
    | callback d =>
      injection hd with e1
      exact mm d e1
    | command n => exact fb hd
    | textMsg t => exact fb hd
  rw [if_neg h0] at hd
  by_cases h1 : s = WEATHER_LOCATION
  · rw [if_pos h1] at hd
    cases ev with
    | textMsg t =>
      injection hd with e1
      rw [← e1] at h
      rcases weather_location_handler_states (some t) ctx env st c2 h with h2 | h2
      · exact Or.inl h2
      · exact Or.inr (Or.inl h2)
    | callback d =>
      dsimp only at hd
      by_cases hb : d = "back"
      · rw [if_pos hb] at hd
        injection hd with e1
        exact mm d e1
      · rw [if_neg hb] at hd
        exact fb hd
    | command n => exact fb hd
  rw [if_neg h1] at hd
  by_cases h2 : s = ASK_QUESTION
  · rw [if_pos h2] at hd
    cases ev with
    | textMsg t =>
      injection hd with e1
      rw [← e1] at h
      rcases ask_question_handler_states (some t) ctx env st c2 h with h3 | h3
      · exact Or.inl h3
      · exact Or.inr (Or.inr (Or.inl h3))
    | callback d =>
      dsimp only at hd
      by_cases hb : d = "back"
      · rw [if_pos hb] at hd
        injection hd with e1
        exact mm d e1
      · rw [if_neg hb] at hd
        exact fb hd
    | command n => exact fb hd
  rw [if_neg h2] at hd
  by_cases h3 : s = EVENTS_LOCATION
  · rw [if_pos h3] at hd
    cases ev with
    | textMsg t =>
      injection hd with e1
      rw [← e1] at h
      rcases events_location_handler_states (some t) ctx env st c2 h with h4 | h4
      · exact Or.inl h4
      · exact Or.inr (Or.inr (Or.inr (Or.inl h4)))
    | callback d =>
      dsimp only at hd
      by_cases hb : d = "back"
      · rw [if_pos hb] at hd
        injection hd with e1
        exact mm d e1
      · rw [if_neg hb] at hd
        exact fb hd
    | command n => exact fb hd
  rw [if_neg h3] at hd
  exact fb hd

/-! ### Claim theorems -/

/-- C1 (counterexample): two "ask" dispatches on the same conversation, 2 time
units apart, each perform exactly one outbound lookup call: the second
dispatch is NOT skipped (contrary to the claimed rate-limit cooldown), and the
handler leaves the context (including the last-request timestamp) untouched. -/
theorem c1_rate_limit_cex :
    countHttp (ask_question_handler (some "hello") sampleCtx (envAsk 0)).effects = 1
    ∧ (ask_question_handler (some "hello") sampleCtx (envAsk 0)).result
        = .ok (MAIN_MENU, sampleCtx)
    ∧ countHttp (ask_question_handler (some "hello") sampleCtx (envAsk 2)).effects = 1
    ∧ (2 : ℚ) - 0 < 5 := by
  exact ⟨by decide, by decide, by decide, by norm_num⟩

/-- C1 (amended): `rate_limit_user` does implement the 5-unit cooldown check
over the last-request timestamp, but no handler invokes it: a valid "ask"
event always performs its outbound lookup, whatever the context and clock. -/
theorem c1_rate_limit_amended :
    (∀ (now lr : ℚ) (ud : UserData), ud.last_request = some lr → now - lr < 5 →
        rate_limit_user now ud = (true, ud))
    ∧ (∀ (now : ℚ) (ud : UserData), ud.last_request = none →
        rate_limit_user now ud = (false, ⟨some now, ud.weather_data⟩))
    ∧ (∀ (t : String) (ctx : BotCtx) (env : Env), validate_question (clean_input t) = true →
        countHttp (ask_question_handler (some t) ctx env).effects = 1) := by
  refine ⟨?_, ?_, ?_⟩
  · intro now lr ud h hlt
    simp [rate_limit_user, h, hlt]
  · intro now ud h
    simp [rate_limit_user, h]
  · intro t ctx env hv
    have hv2 : (!validate_question (clean_input t)) = false := by rw [hv]; rfl
    simp only [ask_question_handler, hv2, Bool.false_eq_true, if_false]
    rcases hn : env.aiNet with a | _ | code | m | _ | m <;>
      simp [ask_ai, fetch_ai_response, fetch_ai_try, hn, countHttp, isHttpGet, List.filter]

theorem c1_rate_limit_amended_witness :
    ((⟨some 0, none⟩ : UserData).last_request = some 0 ∧ (3 : ℚ) - 0 < 5
      ∧ rate_limit_user 3 ⟨some 0, none⟩ = (true, ⟨some 0, none⟩))
    ∧ ((⟨none, none⟩ : UserData).last_request = none
      ∧ rate_limit_user 3 ⟨none, none⟩ = (false, ⟨some 3, none⟩))
    ∧ (validate_question (clean_input "hello") = true
      ∧ countHttp (ask_question_handler (some "hello") sampleCtx (envAsk 0)).effects = 1) := by
  refine ⟨⟨rfl, by norm_num, c1_rate_limit_amended.1 3 0 ⟨some 0, none⟩ rfl (by norm_num)⟩,
    ⟨rfl, c1_rate_limit_amended.2.1 3 ⟨none, none⟩ rfl⟩,
    ⟨by decide, c1_rate_limit_amended.2.2 "hello" sampleCtx (envAsk 0) (by decide)⟩⟩

/-- C2: a Timeout of the weather lookup on a text message in
`WEATHER_LOCATION` keeps the state at `WEATHER_LOCATION`; a Timeout of the AI
lookup on a text message in `ASK_QUESTION` yields `MAIN_MENU`. -/
theorem c2_timeout_transitions :
    (∀ (t : String) (ctx : BotCtx) (env : Env),
        validate_city_name (clean_input t) = true → env.weatherNet = .timeout →
        stateOf (weather_location_handler (some t) ctx env) = some WEATHER_LOCATION)
    ∧ (∀ (t : String) (ctx : BotCtx) (env : Env),
        validate_question (clean_input t) = true → env.aiNet = .timeout →
        stateOf (ask_question_handler (some t) ctx env) = some MAIN_MENU) := by
  constructor
  · intro t ctx env hv hw
    have hv2 : (!validate_city_name (clean_input t)) = false := by rw [hv]; rfl
    simp only [weather_location_handler, hv2, Bool.false_eq_true, if_false, hw]
    simp [get_weather_data, get_weather_try, stateOf]
  · intro t ctx env hv hw
    have hv2 : (!validate_question (clean_input t)) = false := by rw [hv]; rfl
    simp only [ask_question_handler, hv2, Bool.false_eq_true, if_false, hw]
    simp [ask_ai, fetch_ai_response, fetch_ai_try, stateOf]

theorem c2_timeout_transitions_witness :
    (validate_city_name (clean_input "Cebu") = true
      ∧ stateOf (weather_location_handler (some "Cebu") sampleCtx envAllTimeout)
          = some WEATHER_LOCATION)
    ∧ (validate_question (clean_input "Why is it hot") = true
      ∧ stateOf (ask_question_handler (some "Why is it hot") sampleCtx envAllTimeout)
          = some MAIN_MENU) :=
  ⟨⟨by decide, c2_timeout_transitions.1 "Cebu" sampleCtx envAllTimeout (by decide) rfl⟩,
   ⟨by decide, c2_timeout_transitions.2 "Why is it hot" sampleCtx envAllTimeout (by decide) rfl⟩⟩

/-- C3 (counterexample): `clean_input` is not idempotent: on `"@ a"` the
removal of `'@'` (after stripping already happened) exposes a leading space
that a second application removes. -/
theorem c3_clean_idempotent_cex :
    clean_input (clean_input "@ a") ≠ clean_input "@ a" := by decide

/-- C3 (amended): `clean_input ∘ clean_input` is idempotent: from the second
application on, the result is a fixed point of `clean_input`. -/
theorem c3_clean_double_stable (t : String) :
    clean_input (clean_input (clean_input t)) = clean_input (clean_input t) := by
  obtain ⟨hok, hch, hall⟩ := cleanList_props t.data
  have h2 : cleanList (cleanList t.data) = pyStrip (cleanList t.data) :=
    cleanList_fixed _ hok hch hall
  have h3 : cleanList (pyStrip (cleanList t.data)) = pyStrip (pyStrip (cleanList t.data)) :=
    cleanList_fixed _ (fun c hc hs => hok c (mem_pyStrip _ c hc) hs) (noAdj_pyStrip _ hch)
      (fun c hc => hall c (mem_pyStrip _ c hc))
  show (⟨cleanList (cleanList (cleanList t.data))⟩ : String) = ⟨cleanList (cleanList t.data)⟩
  rw [h2, h3, pyStrip_idem]

/-- C4 (counterexample): the code accepts `"_"` (the regex class `\w`
contains the underscore) while the spec's allow-list `[A-Za-z0-9 ,.\-]`
rejects it. -/
theorem c4_validate_city_cex :
    validate_city_name "_" = true ∧ spec_validate_city "_" = false := by decide

/-- C4 (amended): `validate_city_name` returns `true` exactly for nonempty
inputs of at most 50 characters all of whose characters lie in `\w ∪ \s ∪
\x7b '-', ',', '.' \x7d` — i.e. the allow-list additionally contains the
underscore and all whitespace, and the empty string is rejected. -/
theorem c4_validate_city_characterized (s : String) :
    validate_city_name s = true ↔
      s.length ≤ 50 ∧ s.data ≠ [] ∧ ∀ c ∈ s.data, cityClassChar c = true := by
  unfold validate_city_name matchesCityClass MAX_CITY_LENGTH
  by_cases hlen : s.length > 50
  · rw [if_pos hlen]
    simp only [Bool.false_eq_true, false_iff]
    rintro ⟨h1, -, -⟩
    omega
  · rw [if_neg hlen]
    by_cases hm : (!(!s.data.isEmpty && s.data.all cityClassChar)) = true
    · rw [if_pos hm]
      simp only [Bool.false_eq_true, false_iff]
      rintro ⟨-, h2, h3⟩
      have hIsE : s.data.isEmpty = false := by
        cases hD : s.data with
        | nil => exact absurd hD h2
        | cons a l => rfl
      have hAll : s.data.all cityClassChar = true := List.all_eq_true.mpr h3
      rw [hIsE, hAll] at hm
      exact absurd hm (by decide)
    · rw [if_neg hm]
      have hX : (!s.data.isEmpty && s.data.all cityClassChar) = true := by
        cases hB : (!s.data.isEmpty && s.data.all cityClassChar) with
        | false => exact absurd (by rw [hB]; rfl) hm
        | true => rfl
      rw [Bool.and_eq_true] at hX
      obtain ⟨hE, hAll⟩ := hX
      have hne : s.data ≠ [] := by
        intro hnil
        rw [hnil] at hE
        exact absurd hE (by decide)
      exact ⟨fun _ => ⟨by omega, hne, List.all_eq_true.mp hAll⟩, fun _ => rfl⟩

/-- C5 (counterexample): `start` on a context holding a rate-limit timestamp
and a weather payload returns `MAIN_MENU` with `chat_data` cleared but the
`user_data` — timestamp and payload — intact, contrary to the claim that the
whole ConversationContext is cleared. -/
theorem c5_start_cex :
    (start richCtx (envAsk 0)).result
        = .ok (MAIN_MENU, ⟨⟨some 7, some sampleWeather⟩, []⟩)
    ∧ some (7 : ℚ) ≠ (none : Option ℚ)
    ∧ some sampleWeather ≠ (none : Option WeatherData) :=
  ⟨rfl, by decide, by decide⟩

/-- C5 (amended): a Start/reset event clears `chat_data`, leaves `user_data`
(the last-request timestamp and the last weather payload) unchanged, replies
with the welcome message and main menu, and re-enters `MAIN_MENU`. -/
theorem c5_start_amended :
    ∀ (ctx : BotCtx) (env : Env),
      (start ctx env).result = .ok (MAIN_MENU, ⟨ctx.user_data, []⟩)
      ∧ (start ctx env).effects
          = [.sendMessage ("🌍 Hello " ++ env.firstName ++ "! Welcome to *AeroBot* 🌱\n\n"
              ++ "I\'m your climate and weather assistant. Here\'s what I can help with:\n"
              ++ "• Real-time weather data and forecasts 🌦️\n"
              ++ "• Climate change information and tips 🌱\n"
              ++ "• Disaster preparedness guides ⚠️\n"
              ++ "• Environmental laws and regulations 📜\n\n"
              ++ "How can I assist you today?") main_menu] :=
  fun _ _ => ⟨rfl, rfl⟩

/-- C6 (counterexample): a single Timeout of the one `requests.get` of the AI
binding already produces the failure message — exactly one outbound attempt,
no retry — and the weather binding makes exactly one call to its single
provider and returns `None` on failure, with no secondary provider. -/
theorem c6_single_attempt_cex :
    fetch_ai_response "q" "" 1000 .timeout
        = ([.httpGet deepseekUrl "q"],
           .ok "⚠️ Aero Bot service is taking too long to respond. Please try again later.")
    ∧ get_weather_data "Paris" .timeout = ([.httpGet kaizUrl "Paris"], .ok none) :=
  ⟨by decide, by decide⟩

/-- C6 (amended): the retry configuration (5 retries, backoff factor 0.2) is
attached to the cached session of the Open-Meteo client, which no handler
uses; the AI-completion and weather bindings each issue exactly one HTTP
attempt, and the weather binding has a single provider, returning `None`
whenever that provider does not yield a payload. -/
theorem c6_retry_amended :
    retry_session.retries = 5 ∧ retry_session.backoff_factor = 0.2
    ∧ openmeteo.session = retry_session
    ∧ (∀ (p sm : String) (mt : Nat) (net : FetchOutcome (Option String)),
        countHttp (fetch_ai_response p sm mt net).1 = 1)
    ∧ (∀ (city : String) (net : FetchOutcome (Option WeatherData)),
        countHttp (get_weather_data city net).1 = 1)
    ∧ (∀ (city : String) (net : FetchOutcome (Option WeatherData)),
        (∀ w : WeatherData, net ≠ .success (some w)) →
        (get_weather_data city net).2 = .ok none) := by
  refine ⟨rfl, rfl, rfl, ?_, ?_, ?_⟩
  · intro p sm mt net; rfl
  · intro city net; rfl
  · intro city net h
    cases net with
    | success d =>
      cases d with
      | none => rfl
      | some w => exact absurd rfl (h w)
    | timeout => rfl
    | httpError code => rfl
    | transportError m => rfl
    | badJson => rfl
    | otherFailure m => rfl

theorem c6_retry_amended_witness :
    (∀ w : WeatherData,
        (FetchOutcome.timeout : FetchOutcome (Option WeatherData)) ≠ .success (some w))
    ∧ (get_weather_data "Paris" .timeout).2 = .ok none :=
  ⟨fun _ h => FetchOutcome.noConfusion h,
   c6_retry_amended.2.2.2.2.2 "Paris" .timeout (fun _ h => FetchOutcome.noConfusion h)⟩

/-- C7: dispatching the "back" callback from each of the four conversation
states invokes `main_menu_handler`, which replies with the main-menu render
and returns `MAIN_MENU`, leaving the context unchanged. -/
theorem c7_back_always_main_menu :
    ∀ (ctx : BotCtx) (env : Env),
      conv_dispatch MAIN_MENU (.callback "back") ctx env
        = some ⟨[.answerCallback,
                 .sendMessage "🌍 Main Menu 🌱\n\nSelect an option:" main_menu],
                .ok (MAIN_MENU, ctx)⟩
      ∧ conv_dispatch WEATHER_LOCATION (.callback "back") ctx env
        = some ⟨[.answerCallback,
                 .sendMessage "🌍 Main Menu 🌱\n\nSelect an option:" main_menu],
                .ok (MAIN_MENU, ctx)⟩
      ∧ conv_dispatch ASK_QUESTION (.callback "back") ctx env
        = some ⟨[.answerCallback,
                 .sendMessage "🌍 Main Menu 🌱\n\nSelect an option:" main_menu],
                .ok (MAIN_MENU, ctx)⟩
      ∧ conv_dispatch EVENTS_LOCATION (.callback "back") ctx env
        = some ⟨[.answerCallback,
                 .sendMessage "🌍 Main Menu 🌱\n\nSelect an option:" main_menu],
                .ok (MAIN_MENU, ctx)⟩ :=
  fun _ _ => ⟨rfl, rfl, rfl, rfl⟩

/-- C8: none of the three lookup bindings lets an exception escape: whatever
the underlying HTTP call does (timeout, HTTP error status, transport error,
bad payload, or any other exception), each binding returns normally. -/
theorem c8_lookups_never_raise :
    (∀ (prompt system_message : String) (max_tokens : Nat)
        (net : FetchOutcome (Option String)),
        returnsNormally (fetch_ai_response prompt system_message max_tokens net).2 = true)
    ∧ (∀ (city : String) (net : FetchOutcome (Option WeatherData)),
        returnsNormally (get_weather_data city net).2 = true)
    ∧ (∀ (city : Option String) (net : FetchOutcome (List Article)),
        returnsNormally (get_climate_events city net).2 = true) := by
  refine ⟨?_, ?_, ?_⟩
  · intro p sm mt net; cases net <;> rfl
  · intro city net; cases net <;> rfl
  · intro city net; cases net <;> rfl

/-- C9: `validate_city_name` rejects the empty string (and any input that
sanitizes to it), while the events handler's separate truthiness test lets an
empty location through: it proceeds to a (global) news lookup and returns
`MAIN_MENU`. -/
theorem c9_empty_city_rejected :
    validate_city_name "" = false
    ∧ (∀ t : String, clean_input t = "" → validate_city_name (clean_input t) = false)
    ∧ (∀ (t : String) (ctx : BotCtx) (env : Env), clean_input t = "" →
        stateOf (events_location_handler (some t) ctx env) = some MAIN_MENU
        ∧ countHttp (events_location_handler (some t) ctx env).effects = 1) := by
  refine ⟨by decide, ?_, ?_⟩
  · intro t h
    rw [h]
    decide
  · intro t ctx env h
    have hc : (clean_input t != "") = false := by rw [h]; rfl
    simp only [events_location_handler, hc, Bool.false_and, Bool.false_eq_true, if_false]
    rcases hn : env.newsNet with a | _ | code | m | _ | m <;>
      simp [get_climate_events, get_climate_events_try, hn, stateOf, countHttp, isHttpGet,
        List.filter]

theorem c9_empty_city_rejected_witness :
    (clean_input "" = "" ∧ validate_city_name (clean_input "") = false)
    ∧ stateOf (events_location_handler (some "") sampleCtx envAllTimeout) = some MAIN_MENU :=
  ⟨⟨by decide, c9_empty_city_rejected.2.1 "" (by decide)⟩,
   (c9_empty_city_rejected.2.2 "" sampleCtx envAllTimeout (by decide)).1⟩

/-- C10: every state returned by a dispatched handler lies in
\x7b MAIN_MENU, WEATHER_LOCATION, ASK_QUESTION, EVENTS_LOCATION, END \x7d — in
particular it is never `WATER_TIPS_LOCATION` — and the entry point `start`
returns `MAIN_MENU`, so the fifth declared state is unreachable. -/
theorem c10_state_range :
    (∀ (s : Int) (ev : TgEvent) (ctx : BotCtx) (env : Env) (res : HOut) (st : Int)
        (c2 : BotCtx), conv_dispatch s ev ctx env = some res → res.result = .ok (st, c2) →
        st ≠ WATER_TIPS_LOCATION
        ∧ (st = MAIN_MENU ∨ st = WEATHER_LOCATION ∨ st = ASK_QUESTION
            ∨ st = EVENTS_LOCATION ∨ st = END_CONVERSATION))
    ∧ (∀ (ctx : BotCtx) (env : Env), stateOf (start ctx env) = some MAIN_MENU) := by
  constructor
  · intro s ev ctx env res st c2 hd h
    have hs := conv_dispatch_states s ev ctx env res st c2 hd h
    refine ⟨?_, hs⟩
    rcases hs with h1 | h1 | h1 | h1 | h1 <;> (subst h1; decide)
  · intro ctx env
    rfl

theorem c10_state_range_witness :
    (MAIN_MENU ≠ WATER_TIPS_LOCATION
      ∧ (MAIN_MENU = MAIN_MENU ∨ MAIN_MENU = WEATHER_LOCATION ∨ MAIN_MENU = ASK_QUESTION
          ∨ MAIN_MENU = EVENTS_LOCATION ∨ MAIN_MENU = END_CONVERSATION)) :=
  c10_state_range.1 MAIN_MENU (.callback "back") sampleCtx envAllTimeout
    (main_menu_handler "back" sampleCtx envAllTimeout) MAIN_MENU sampleCtx rfl rfl

end Aero
